import Mathlib

/-!
Shallow embedding of the rgbd-grabber repository's startup logic.

The embedded code:
* `src/example/stereo_match.cpp`, function `main`: the command-line
  argument loop (lines 54-97), the post-loop consistency checks
  (lines 99-107), the camera-start / calibration-file phase
  (lines 109-162) and the default disparity computation (lines 164-165).
* `src/include/rgbd/camera/UVCamera.h`: the UVCamera class.  Its
  implementation file is not part of src/, so the behaviour of
  `start` / `update` / `captureColor` is modelled from the spec
  (sections 3, 4.1 and 4.2).

C strings are lists of characters; C `int` values are Lean `Int`
(overflow never occurs on the values the program validates); C's `%`
on `int` is truncated division, embedded as `Int.tmod`.
-/

namespace StereoMatch

/-- A C string, as the list of its characters. -/
abbrev Str := List Char

/-- stereo_match.cpp line 28: `const char* algorithm_opt = "--algorithm="`. -/
def algorithm_opt : Str := "--algorithm=".data

/-- stereo_match.cpp line 29: `const char* maxdisp_opt = "--max-disparity="`. -/
def maxdisp_opt : Str := "--max-disparity=".data

/-- stereo_match.cpp line 30: `const char* blocksize_opt = "--blocksize="`. -/
def blocksize_opt : Str := "--blocksize=".data

/-- stereo_match.cpp line 31: `const char* nodisplay_opt = "--no-display"`. -/
def nodisplay_opt : Str := "--no-display".data

/-- stereo_match.cpp line 32: `const char* scale_opt = "--scale="`.
This constant is declared in `main` but the argument loop never
compares any argument against it. -/
def scale_opt : Str := "--scale=".data

/-- `strncmp(s, opt, strlen(opt)) == 0`: the first `opt.length`
characters of `s` are exactly `opt`.  The recursion walks the option
literal. -/
def strncmpOpt (opt s : Str) : Bool :=
  match opt with
  | [] => true
  | o :: os =>
    match s with
    | [] => false
    | c :: cs => (o == c) && strncmpOpt os cs

/-- C `isspace` in the default locale: the characters `scanf`'s `%d`
conversion skips before the number. -/
def cIsSpace (c : Char) : Bool :=
  c = ' ' || c = '\t' || c = '\n' || c = '\x0b' || c = '\x0c' || c = '\r'

/-- Numeric value of a decimal digit character. -/
def digitVal (c : Char) : Nat := c.toNat - 48

/-- Value of a non-empty string of decimal digits. -/
def natOfDigits (ds : Str) : Nat := ds.foldl (fun a c => 10 * a + digitVal c) 0

/-- The digit part of `%d`: a maximal run of leading decimal digits;
conversion fails when there is none. -/
def scanDigits (t : Str) : Option Nat :=
  let ds := t.takeWhile Char.isDigit
  if ds.isEmpty then none else some (natOfDigits ds)

/-- `sscanf(s, "%d", &n)`: skip whitespace, read an optional sign and a
non-empty digit run; `some n` when the conversion succeeds (trailing
characters are ignored, as in C), `none` when it fails. -/
def sscanfD (s : Str) : Option Int :=
  match s.dropWhile cIsSpace with
  | '-' :: t => (scanDigits t).map (fun n => -(n : Int))
  | '+' :: t => (scanDigits t).map (fun n => (n : Int))
  | t => (scanDigits t).map (fun n => (n : Int))

/-- The local state `main` builds up while scanning the argument list
(stereo_match.cpp lines 38-48).  File-name pointers that are still
`NULL` are `none`. -/
structure Config where
  alg : Int
  sadWindowSize : Int
  numberOfDisparities : Int
  noDisplay : Bool
  intrinsic : Option Str
  extrinsic : Option Str
  disparity : Option Str
  pointCloud : Option Str
deriving DecidableEq, Repr

/-- Initial values at stereo_match.cpp lines 38-48: `alg = STEREO_SGBM`
(= 1), both sizes 0, `no_display = false`, all four file names `NULL`. -/
def initConfig : Config :=
  { alg := 1, sadWindowSize := 0, numberOfDisparities := 0, noDisplay := false,
    intrinsic := none, extrinsic := none, disparity := none, pointCloud := none }

/-- stereo_match.cpp lines 58-61: the chained `strcmp` chain mapping the
algorithm name to `STEREO_BM`/`STEREO_SGBM`/`STEREO_HH`/`STEREO_VAR`
and `-1` for anything else. -/
def algOf (s : Str) : Int :=
  if s = "bm".data then 0
  else if s = "sgbm".data then 1
  else if s = "hh".data then 2
  else if s = "var".data then 3
  else -1

/-- The argument loop of `main` (stereo_match.cpp lines 54-97).
`.error c` embeds `return c` out of the loop after an error message.
`strncmp(a, opt, strlen(opt)) == 0` is `strncmpOpt opt a`;
`argv[i] + strlen(opt)` is `a.drop opt.length`; C's `%` on `int` is
`Int.tmod`.  For the flags `-i`, `-e`, `-o`, `-p` the value is
`argv[++i]`: when the flag is the last argument this reads
`argv[argc]`, which is the null pointer mandated by the C standard, so
the file name is set back to `NULL` and the loop ends (the incremented
index has moved past `argc`). -/
def parseLoop (st : Config) : List Str → Except Int Config
  | [] => .ok st
  | a :: rest =>
    if strncmpOpt algorithm_opt a then
      let alg := algOf (a.drop algorithm_opt.length)
      if alg < 0 then .error (-1)
      else parseLoop { st with alg := alg } rest
    else if strncmpOpt maxdisp_opt a then
      (sscanfD (a.drop maxdisp_opt.length)).elim (.error (-1)) (fun d =>
        if d < 1 ∨ d.tmod 16 ≠ 0 then .error (-1)
        else parseLoop { st with numberOfDisparities := d } rest)
    else if strncmpOpt blocksize_opt a then
      (sscanfD (a.drop blocksize_opt.length)).elim (.error (-1)) (fun b =>
        if b < 1 ∨ b.tmod 2 ≠ 1 then .error (-1)
        else parseLoop { st with sadWindowSize := b } rest)
    else if a = nodisplay_opt then
      parseLoop { st with noDisplay := true } rest
    else if a = "-i".data then
      match rest with
      | [] => .ok { st with intrinsic := none }
      | v :: rest2 => parseLoop { st with intrinsic := some v } rest2
    else if a = "-e".data then
      match rest with
      | [] => .ok { st with extrinsic := none }
      | v :: rest2 => parseLoop { st with extrinsic := some v } rest2
    else if a = "-o".data then
      match rest with
      | [] => .ok { st with disparity := none }
      | v :: rest2 => parseLoop { st with disparity := some v } rest2
    else if a = "-p".data then
      match rest with
      | [] => .ok { st with pointCloud := none }
      | v :: rest2 => parseLoop { st with pointCloud := some v } rest2
    else .error (-1)

/-- The two consistency checks after the loop (stereo_match.cpp lines
99-107): `(intrinsic_filename != 0) ^ (extrinsic_filename != 0)` is an
error, then `extrinsic_filename == 0 && point_cloud_filename` is an
error; both return `-1`. -/
def postChecks (cfg : Config) : Except Int Config :=
  if (cfg.intrinsic.isSome).xor (cfg.extrinsic.isSome) then .error (-1)
  else if cfg.extrinsic.isNone && cfg.pointCloud.isSome then .error (-1)
  else .ok cfg

/-- Result of the start-up part of `main`: `helpExit` is the
`argc < 3` path (print usage, `return 0`), `exitCode c` is `return c`
after an error message, `proceed cfg` reaches the camera phase with the
parsed configuration. -/
inductive Outcome where
  | helpExit
  | exitCode (c : Int)
  | proceed (cfg : Config)
deriving DecidableEq, Repr

/-- `main` up to and including the post-loop checks (stereo_match.cpp
lines 34-107).  `args` is `argv[1..argc-1]`, so `argc = args.length + 1`. -/
def mainStartup (args : List Str) : Outcome :=
  if args.length + 1 < 3 then .helpExit
  else
    match parseLoop initConfig args with
    | .error c => .exitCode c
    | .ok cfg =>
      match postChecks cfg with
      | .error c => .exitCode c
      | .ok cfg2 => .proceed cfg2

/-- Observable start-up events of `main` after the checks: starting a
camera (stereo_match.cpp lines 110 and 112) and opening a calibration
file with success flag (lines 126-127 and 138-139). -/
inductive Ev where
  | camStart (idx : Nat)
  | fileOpen (name : Str) (ok : Bool)
deriving DecidableEq, Repr

/-- The camera-start / calibration phase of `main` (stereo_match.cpp
lines 109-162), as the list of events it performs paired with `some c`
when it executes `return c`, `none` when it falls through to the
processing loop.  `fsOpen` tells which file names open successfully.
Both cameras are started at lines 110 and 112, before line 124 tests
`intrinsic_filename`.  The overall `none` result is the path where
`fs.open` would be called with a null `extrinsic_filename`
(unreachable after `postChecks`, undefined behaviour in C++). -/
def startupTrace (cfg : Config) (fsOpen : Str → Bool) :
    Option (List Ev × Option Int) :=
  let t0 : List Ev := [Ev.camStart 1, Ev.camStart 2]
  match cfg.intrinsic with
  | none => some (t0, none)
  | some f =>
    if fsOpen f then
      match cfg.extrinsic with
      | none => none
      | some g =>
        if fsOpen g then some (t0 ++ [Ev.fileOpen f true, Ev.fileOpen g true], none)
        else some (t0 ++ [Ev.fileOpen f true, Ev.fileOpen g false], some (-1))
    else some (t0 ++ [Ev.fileOpen f false], some (-1))

/-- stereo_match.cpp lines 164-165, the false branch of the conditional:
`((img_size.width / 8) + 15) & -16`.  The operands are 32-bit two's
complement ints, so `& -16` is a bitwise AND with the mask
`0xFFFFFFF0 = 2^32 - 16`. -/
def defaultNumDisparities (width : Nat) : Nat :=
  (width / 8 + 15) &&& (2 ^ 32 - 16)

/-- stereo_match.cpp lines 164-165:
`numberOfDisparities = numberOfDisparities > 0 ? numberOfDisparities : ((img_size.width / 8) + 15) & -16`. -/
def finalNumDisparities (numberOfDisparities : Int) (width : Nat) : Int :=
  if numberOfDisparities > 0 then numberOfDisparities
  else (defaultNumDisparities width : Int)

end StereoMatch

namespace rgbd

/-- A color frame: its dimensions plus opaque pixel contents. -/
structure Frame where
  width : Nat
  height : Nat
  data : Nat
deriving DecidableEq, Repr

/-- Modelled from the spec: the implementation file of `UVCamera`
(declared in src/include/rgbd/camera/UVCamera.h) is not in src/, so the
state is taken from the header's members and spec sections 3 and 4.2:
the construction-time size `_size` is `const`; `start()` opens the
device at the configured size and launches the polling activity; the
polling activity repeatedly reads one frame from the device and stores
it in the protected buffer `_buffer`; `captureColor` copies the
protected buffer out. -/
structure UVCamera where
  deviceNo : Nat
  size : Nat × Nat
  started : Bool
  buffer : Frame
deriving DecidableEq, Repr

/-- Modelled from the spec: the `UVCamera(deviceNo, size, fps)`
constructor fixes `_size` at construction; the default size is 640x480
(UVCamera.h line 22). -/
def mkUVCamera (deviceNo : Nat) (size : Nat × Nat) : UVCamera :=
  { deviceNo := deviceNo, size := size, started := false,
    buffer := { width := size.1, height := size.2, data := 0 } }

/-- The constructor with the header's default size `cv::Size(640, 480)`. -/
def mkUVCameraDefault (deviceNo : Nat) : UVCamera :=
  mkUVCamera deviceNo (640, 480)

/-- Modelled from the spec: the device, opened at the configured size,
delivers frames of exactly that size; `raw` is the opaque content of
the frame read. -/
def deviceRead (size : Nat × Nat) (raw : Nat) : Frame :=
  { width := size.1, height := size.2, data := raw }

/-- The operations that can happen to a `UVCamera` after construction:
`start`, one iteration of the background polling activity (reading a
frame with content `raw` from the device), and a `captureColor` call
(which does not mutate the camera). -/
inductive CamOp where
  | start
  | poll (raw : Nat)
  | capture
deriving DecidableEq, Repr

/-- Modelled from the spec: the effect of one operation on the camera
state.  `start` launches polling; a poll iteration stores the frame
read from the device into the protected buffer; `captureColor` only
reads. -/
def stepCam (c : UVCamera) : CamOp → UVCamera
  | .start => { c with started := true }
  | .poll raw => if c.started then { c with buffer := deviceRead c.size raw } else c
  | .capture => c

/-- A sequence of operations applied to a camera. -/
def runCam (c : UVCamera) (ops : List CamOp) : UVCamera :=
  ops.foldl stepCam c

/-- Modelled from the spec: `captureColor` copies the protected buffer
into the caller's buffer; the returned frame is the current buffer. -/
def captureColor (c : UVCamera) : Frame := c.buffer

/-- UVCamera.h line 27: `colorSize()` returns the `const` member `_size`. -/
def colorSize (c : UVCamera) : Nat × Nat := c.size

end rgbd
namespace StereoMatch

theorem parseLoop_maxdisp_step (st : Config) (v : Str) (rest : List Str) :
    parseLoop st ((maxdisp_opt ++ v) :: rest) =
      (sscanfD v).elim (.error (-1)) (fun d =>
        if d < 1 ∨ d.tmod 16 ≠ 0 then .error (-1)
        else parseLoop { st with numberOfDisparities := d } rest) := by
  rw [parseLoop.eq_def]; rfl

theorem parseLoop_blocksize_step (st : Config) (v : Str) (rest : List Str) :
    parseLoop st ((blocksize_opt ++ v) :: rest) =
      (sscanfD v).elim (.error (-1)) (fun b =>
        if b < 1 ∨ b.tmod 2 ≠ 1 then .error (-1)
        else parseLoop { st with sadWindowSize := b } rest) := by
  rw [parseLoop.eq_def]; rfl

/-- Claim C1: for an argument of the form `--max-disparity=<v>`: when
`v` parses as an integer `d` with `d > 0` and `d % 16 == 0`, the loop
accepts the flag and continues with `numberOfDisparities = d`; for any
other value (non-numeric, `d < 1`, or `d` not divisible by 16) the
program errors out with exit code `-1`. -/
theorem claim_C1 (st : Config) (v : Str) (rest : List Str) :
    (∀ d : Int, sscanfD v = some d → 0 < d → d % 16 = 0 →
       parseLoop st ((maxdisp_opt ++ v) :: rest) =
         parseLoop { st with numberOfDisparities := d } rest)
    ∧ ((∀ d : Int, sscanfD v = some d → d < 1 ∨ ¬(d % 16 = 0)) →
       parseLoop st ((maxdisp_opt ++ v) :: rest) = .error (-1)) := by
  constructor
  · intro d hd hpos hmod
    have ht : d.tmod 16 = 0 := by
      rw [Int.tmod_eq_emod (by omega) (by norm_num)]
      exact hmod
    rw [parseLoop_maxdisp_step, hd]
    simp only [Option.elim]
    rw [if_neg (by push_neg; exact ⟨by omega, ht⟩)]
  · intro hbad
    rw [parseLoop_maxdisp_step]
    cases hs : sscanfD v with
    | none => simp only [Option.elim]
    | some d =>
      simp only [Option.elim]
      have hcond : d < 1 ∨ d.tmod 16 ≠ 0 := by
        rcases hbad d hs with h | h
        · exact Or.inl h
        · by_cases hlt : d < 1
          · exact Or.inl hlt
          · right
            rw [Int.tmod_eq_emod (by omega) (by norm_num)]
            exact h
      rw [if_pos hcond]

/-- Witness for C1: `--max-disparity=64` is accepted and sets
`numberOfDisparities = 64`; `--max-disparity=50` is rejected with
exit code `-1`. -/
theorem claim_C1_witness :
    parseLoop initConfig [("--max-disparity=64").data] =
      parseLoop { initConfig with numberOfDisparities := 64 } []
    ∧ parseLoop initConfig [("--max-disparity=50").data] = .error (-1) := by
  constructor
  · exact (claim_C1 initConfig ("64").data []).1 64 rfl (by decide) (by decide)
  · refine (claim_C1 initConfig ("50").data []).2 ?_
    intro d hd
    have h50 : sscanfD ("50").data = some 50 := rfl
    rw [h50] at hd
    injection hd with h
    subst h
    decide

/-- Claim C2: for an argument of the form `--blocksize=<v>`: when `v`
parses as an integer `b` with `b > 0` and `b % 2 == 1`, the loop
accepts the flag and continues with `SADWindowSize = b`; for any other
value (non-numeric, `b < 1`, or `b` even) the program errors out with
exit code `-1`. -/
theorem claim_C2 (st : Config) (v : Str) (rest : List Str) :
    (∀ b : Int, sscanfD v = some b → 0 < b → b % 2 = 1 →
       parseLoop st ((blocksize_opt ++ v) :: rest) =
         parseLoop { st with sadWindowSize := b } rest)
    ∧ ((∀ b : Int, sscanfD v = some b → b < 1 ∨ ¬(b % 2 = 1)) →
       parseLoop st ((blocksize_opt ++ v) :: rest) = .error (-1)) := by
  constructor
  · intro b hb hpos hmod
    have ht : b.tmod 2 = 1 := by
      rw [Int.tmod_eq_emod (by omega) (by norm_num)]
      exact hmod
    rw [parseLoop_blocksize_step, hb]
    simp only [Option.elim]
    rw [if_neg (by push_neg; exact ⟨by omega, ht⟩)]
  · intro hbad
    rw [parseLoop_blocksize_step]
    cases hs : sscanfD v with
    | none => simp only [Option.elim]
    | some b =>
      simp only [Option.elim]
      have hcond : b < 1 ∨ b.tmod 2 ≠ 1 := by
        rcases hbad b hs with h | h
        · exact Or.inl h
        · by_cases hlt : b < 1
          · exact Or.inl hlt
          · right
            rw [Int.tmod_eq_emod (by omega) (by norm_num)]
            exact h
      rw [if_pos hcond]

/-- Witness for C2: `--blocksize=9` is accepted and sets
`SADWindowSize = 9`; `--blocksize=8` is rejected with exit code `-1`. -/
theorem claim_C2_witness :
    parseLoop initConfig [("--blocksize=9").data] =
      parseLoop { initConfig with sadWindowSize := 9 } []
    ∧ parseLoop initConfig [("--blocksize=8").data] = .error (-1) := by
  constructor
  · exact (claim_C2 initConfig ("9").data []).1 9 rfl (by decide) (by decide)
  · refine (claim_C2 initConfig ("8").data []).2 ?_
    intro b hb
    have h8 : sscanfD ("8").data = some 8 := rfl
    rw [h8] at hb
    injection hb with h
    subst h
    decide

end StereoMatch
namespace StereoMatch

/-- Claim C3: for an argument vector that passes per-flag parsing, when
exactly one of the intrinsics flag and the extrinsics flag is set the
program exits with code `-1`; when both or neither are set, this check
passes and the outcome is decided by the later point-cloud check
alone. -/
theorem claim_C3 (args : List Str) (cfg : Config)
    (hlen : 2 ≤ args.length)
    (hp : parseLoop initConfig args = .ok cfg) :
    ((cfg.intrinsic.isSome).xor (cfg.extrinsic.isSome) = true →
       mainStartup args = .exitCode (-1))
    ∧ ((cfg.intrinsic.isSome).xor (cfg.extrinsic.isSome) = false →
       mainStartup args =
         (if cfg.extrinsic.isNone && cfg.pointCloud.isSome then
            Outcome.exitCode (-1)
          else Outcome.proceed cfg)) := by
  have hm : mainStartup args =
      (match postChecks cfg with
       | .error c => Outcome.exitCode c
       | .ok cfg2 => Outcome.proceed cfg2) := by
    unfold mainStartup
    rw [if_neg (by omega), hp]
  constructor
  · intro hx
    rw [hm]
    unfold postChecks
    rw [if_pos hx]
  · intro hx
    rw [hm]
    unfold postChecks
    rw [hx]
    cases h2 : cfg.extrinsic.isNone && cfg.pointCloud.isSome <;> simp

/-- Witness for C3: the run `-i f` (intrinsics without extrinsics)
exits with code `-1`, and the run `-i f -e g` passes both checks and
proceeds. -/
theorem claim_C3_witness :
    mainStartup [("-i").data, ("f").data] = .exitCode (-1)
    ∧ mainStartup [("-i").data, ("f").data, ("-e").data, ("g").data] =
        .proceed { initConfig with intrinsic := some ("f").data,
                                   extrinsic := some ("g").data } := by
  constructor
  · exact (claim_C3 [("-i").data, ("f").data]
      { initConfig with intrinsic := some ("f").data }
      (by decide) rfl).1 rfl
  · exact ((claim_C3 [("-i").data, ("f").data, ("-e").data, ("g").data]
      { initConfig with intrinsic := some ("f").data,
                        extrinsic := some ("g").data }
      (by decide) rfl).2 rfl).trans (by decide)

/-- Claim C4: for an argument vector that passes per-flag parsing, when
the point-cloud flag `-p` is set but the intrinsics and extrinsics
flags are not both set, the program exits with code `-1`. -/
theorem claim_C4 (args : List Str) (cfg : Config)
    (hlen : 2 ≤ args.length)
    (hp : parseLoop initConfig args = .ok cfg)
    (hpc : cfg.pointCloud.isSome = true)
    (hnb : ¬(cfg.intrinsic.isSome = true ∧ cfg.extrinsic.isSome = true)) :
    mainStartup args = .exitCode (-1) := by
  have hm : mainStartup args =
      (match postChecks cfg with
       | .error c => Outcome.exitCode c
       | .ok cfg2 => Outcome.proceed cfg2) := by
    unfold mainStartup
    rw [if_neg (by omega), hp]
  rw [hm]
  unfold postChecks
  cases hi : cfg.intrinsic <;> cases he : cfg.extrinsic
  · simp [hi, he, hpc]
  · simp [hi, he]
  · simp [hi, he]
  · exact absurd ⟨by simp [hi], by simp [he]⟩ hnb

/-- Witness for C4: the run `-p f` (point cloud without calibration
flags) exits with code `-1`. -/
theorem claim_C4_witness :
    mainStartup [("-p").data, ("f").data] = .exitCode (-1) :=
  claim_C4 [("-p").data, ("f").data]
    { initConfig with pointCloud := some ("f").data }
    (by decide) rfl rfl (by decide)

/-- Counterexample for C5: with the single argument
`--max-disparity=50` the program takes the `argc < 3` help path and
returns 0; it does not exit with code `-1`. -/
theorem claim_C5_counterexample :
    mainStartup [("--max-disparity=50").data] = .helpExit
    ∧ Outcome.helpExit ≠ .exitCode (-1) := by
  exact ⟨rfl, by decide⟩

/-- Claim C5 as amended: a single argument (`argc = 2 < 3`) always
prints the usage and returns 0, so `--max-disparity=50` alone help-exits;
when `--max-disparity=50` is the first of at least two arguments, the
divisibility check rejects it and the program exits with code `-1`. -/
theorem claim_C5_amended :
    mainStartup [("--max-disparity=50").data] = .helpExit
    ∧ ∀ (a : Str) (rest : List Str),
        mainStartup (("--max-disparity=50").data :: a :: rest) =
          .exitCode (-1) := by
  refine ⟨rfl, fun a rest => ?_⟩
  unfold mainStartup
  rw [if_neg (by simp [List.length_cons])]
  have herr : parseLoop initConfig
      (("--max-disparity=50").data :: a :: rest) = .error (-1) := by
    rw [parseLoop.eq_def]
    rfl
  rw [herr]

/-- The code at claim C6's failing input: `--scale=1.5` matches no
branch of the argument loop, so the run
`stereo_match --scale=1.5 --no-display` hits the `unknown option`
arm and exits with code `-1`, although the program's own usage text
lists `--scale=<f>` as a supported option and `main` declares
`scale_opt` for it. -/
theorem claim_C6_codebug :
    mainStartup [("--scale=1.5").data, ("--no-display").data] =
      .exitCode (-1) := rfl

/-- Claim C9: each of the value-taking flags `-i`, `-e`, `-o`, `-p`,
given as the last argument, reads `argv[argc]` (the terminating null
pointer) as its value: the corresponding file name becomes `NULL`, the
loop ends without a parameter error, and the run behaves as if the
flag had not been given; in particular a run ending in a lone `-i`
proceeds with no intrinsics file. -/
theorem claim_C9 (st : Config) :
    parseLoop st [("-i").data] = .ok { st with intrinsic := none }
    ∧ parseLoop st [("-e").data] = .ok { st with extrinsic := none }
    ∧ parseLoop st [("-o").data] = .ok { st with disparity := none }
    ∧ parseLoop st [("-p").data] = .ok { st with pointCloud := none }
    ∧ mainStartup [("--no-display").data, ("-i").data] =
        .proceed { initConfig with noDisplay := true } := by
  refine ⟨?_, ?_, ?_, ?_, rfl⟩ <;> (rw [parseLoop.eq_def]; rfl)

end StereoMatch
namespace StereoMatch

/-- Counterexample for C7: the run `-i intr -e extr` passes argument
validation; in an environment where opening the intrinsics file fails,
the program reports the failure and exits with `-1` — but only after
both cameras have been started: the two `camStart` events precede the
failing `fileOpen` event in the trace, so a state in which cameras
have been started is exactly what the failing exit runs from. -/
theorem claim_C7_counterexample :
    mainStartup [("-i").data, ("intr").data, ("-e").data, ("extr").data] =
      .proceed { initConfig with intrinsic := some ("intr").data,
                                 extrinsic := some ("extr").data }
    ∧ startupTrace { initConfig with intrinsic := some ("intr").data,
                                     extrinsic := some ("extr").data }
        (fun _ => false) =
      some ([Ev.camStart 1, Ev.camStart 2, Ev.fileOpen ("intr").data false],
        some (-1)) := ⟨rfl, rfl⟩

/-- Claim C7 as amended: a calibration file open failure is reported
and causes an immediate exit with the non-zero code `-1`, but the two
camera starts always come first: on an intrinsics-open failure the
trace is exactly `[camStart 1, camStart 2, fileOpen f false]`, and on
an extrinsics-open failure it is
`[camStart 1, camStart 2, fileOpen f true, fileOpen g false]`. -/
theorem claim_C7_amended (cfg : Config) (f g : Str) (fsOpen : Str → Bool)
    (hi : cfg.intrinsic = some f) (he : cfg.extrinsic = some g) :
    (fsOpen f = false →
       startupTrace cfg fsOpen =
         some ([Ev.camStart 1, Ev.camStart 2, Ev.fileOpen f false],
           some (-1)))
    ∧ (fsOpen f = true → fsOpen g = false →
       startupTrace cfg fsOpen =
         some ([Ev.camStart 1, Ev.camStart 2, Ev.fileOpen f true,
                Ev.fileOpen g false], some (-1))) := by
  constructor
  · intro hf
    unfold startupTrace
    rw [hi]
    simp [hf]
  · intro hf hg
    unfold startupTrace
    rw [hi]
    simp [hf, he, hg]

/-- Witness for C7's amended claim: a configuration with intrinsics
file `a` and extrinsics file `b` in an environment where every file
open fails. -/
theorem claim_C7_witness :
    startupTrace { initConfig with intrinsic := some ("a").data,
                                   extrinsic := some ("b").data }
        (fun _ => false) =
      some ([Ev.camStart 1, Ev.camStart 2, Ev.fileOpen ("a").data false],
        some (-1)) :=
  (claim_C7_amended
    { initConfig with intrinsic := some ("a").data,
                      extrinsic := some ("b").data }
    ("a").data ("b").data (fun _ => false) rfl rfl).1 rfl

end StereoMatch

namespace rgbd

theorem runCam_size_eq (ops : List CamOp) : ∀ c : UVCamera,
    (runCam c ops).size = c.size := by
  induction ops with
  | nil => intro c; rfl
  | cons op ops ih =>
    intro c
    show (runCam (stepCam c op) ops).size = c.size
    rw [ih (stepCam c op)]
    cases op with
    | start => rfl
    | capture => rfl
    | poll raw =>
      show (if c.started then { c with buffer := deviceRead c.size raw }
            else c).size = c.size
      cases c.started <;> rfl

theorem runCam_buffer_size (ops : List CamOp) : ∀ c : UVCamera,
    c.buffer.width = c.size.1 → c.buffer.height = c.size.2 →
    (runCam c ops).buffer.width = c.size.1 ∧
      (runCam c ops).buffer.height = c.size.2 := by
  induction ops with
  | nil => intro c hw hh; exact ⟨hw, hh⟩
  | cons op ops ih =>
    intro c hw hh
    have hs : (stepCam c op).size = c.size := by
      cases op with
      | start => rfl
      | capture => rfl
      | poll raw =>
        show (if c.started then { c with buffer := deviceRead c.size raw }
              else c).size = c.size
        cases c.started <;> rfl
    have hb : (stepCam c op).buffer.width = (stepCam c op).size.1 ∧
        (stepCam c op).buffer.height = (stepCam c op).size.2 := by
      cases op with
      | start => exact ⟨hw, hh⟩
      | capture => exact ⟨hw, hh⟩
      | poll raw =>
        by_cases h : c.started = true
        · simp [stepCam, h, deviceRead]
        · have h2 : c.started = false := by
            cases hc : c.started
            · rfl
            · exact absurd hc h
          simp [stepCam, h2]
          exact ⟨hw, hh⟩
    have := ih (stepCam c op) hb.1 hb.2
    rw [hs] at this
    exact this

/-- Claim C8 (modelled from the spec, the UVCamera implementation file
not being part of src/): for every UVCamera and every sequence of
operations (start, background poll iterations, captureColor calls),
`captureColor` returns a frame whose dimensions equal the size fixed
at construction, `colorSize` still answers that same size, and with
the defaulted constructor the size is 640x480. -/
theorem claim_C8 (deviceNo : Nat) (size : Nat × Nat) (ops : List CamOp) :
    (captureColor (runCam (mkUVCamera deviceNo size) ops)).width = size.1
    ∧ (captureColor (runCam (mkUVCamera deviceNo size) ops)).height = size.2
    ∧ colorSize (runCam (mkUVCamera deviceNo size) ops) = size
    ∧ colorSize (runCam (mkUVCameraDefault deviceNo) ops) = (640, 480) := by
  have hb := runCam_buffer_size ops (mkUVCamera deviceNo size) rfl rfl
  refine ⟨hb.1, hb.2, ?_, ?_⟩
  · show (runCam (mkUVCamera deviceNo size) ops).size = size
    rw [runCam_size_eq]
    rfl
  · show (runCam (mkUVCamera deviceNo (640, 480)) ops).size = (640, 480)
    rw [runCam_size_eq]
    rfl

end rgbd

namespace StereoMatch

theorem land_mask32 (x : Nat) (hx : x < 2 ^ 32) :
    x &&& (2 ^ 32 - 16) = x / 16 * 16 := by
  have hsplit : x / 16 * 16 = (x >>> 4) <<< 4 := by
    rw [Nat.shiftRight_eq_div_pow, Nat.shiftLeft_eq]
  apply Nat.eq_of_testBit_eq
  intro i
  rw [Nat.testBit_and, hsplit, Nat.testBit_shiftLeft, Nat.testBit_shiftRight]
  rcases Nat.lt_or_ge i 4 with h4 | h4
  · have hm : (2 ^ 32 - 16 : Nat).testBit i = false := by
      interval_cases i <;> decide
    rw [hm, Bool.and_false, decide_eq_false (by omega : ¬ i ≥ 4),
      Bool.false_and]
  · have h44 : 4 + (i - 4) = i := by omega
    rw [decide_eq_true (by omega : i ≥ 4), Bool.true_and, h44]
    rcases Nat.lt_or_ge i 32 with h32 | h32
    · have hm : (2 ^ 32 - 16 : Nat).testBit i = true := by
        interval_cases i <;> decide
      rw [hm, Bool.and_true]
    · have hxb : x.testBit i = false :=
        Nat.testBit_lt_two_pow
          (lt_of_lt_of_le hx (Nat.pow_le_pow_right (by norm_num) h32))
      rw [hxb, Bool.false_and]

/-- Claim C10: when no `--max-disparity` flag was given,
`numberOfDisparities` is still 0 and the demo computes the default
`((width / 8) + 15) & -16`; for every image width `w` with
`8 ≤ w` (and `w` in `int` range) this default is positive and
divisible by 16 — the same constraint the flag validation enforces. -/
theorem claim_C10 (w : Nat) (h8 : 8 ≤ w) (hw : w < 2 ^ 31) :
    finalNumDisparities 0 w = (defaultNumDisparities w : Int)
    ∧ 0 < defaultNumDisparities w
    ∧ defaultNumDisparities w % 16 = 0 := by
  have hlt : w / 8 + 15 < 2 ^ 32 := by omega
  have hval : defaultNumDisparities w = (w / 8 + 15) / 16 * 16 := by
    unfold defaultNumDisparities
    exact land_mask32 _ hlt
  refine ⟨rfl, ?_, ?_⟩
  · rw [hval]
    have h16 : 16 ≤ w / 8 + 15 := by omega
    have : 1 ≤ (w / 8 + 15) / 16 := by omega
    omega
  · rw [hval]
    omega

/-- Witness for C10: at image width 640 the default is positive and
divisible by 16. -/
theorem claim_C10_witness :
    0 < defaultNumDisparities 640 ∧ defaultNumDisparities 640 % 16 = 0 :=
  (claim_C10 640 (by decide) (by decide)).2

end StereoMatch
